import Mathlib

/-!
Verification development for the AI support-bot repository: a shallow
embedding of its token accounting (`token_utils.py`), FAQ keyword matching,
document chunking (the configured `RecursiveCharacterTextSplitter`),
knowledge-base ingestion and querying (`knowledge_base_handler.py`), and the
chat endpoint (`main.py`), together with theorems settling the spec claims.

External services (embedding, completion, tiktoken, the filesystem and the
database) are modelled as explicit environment parameters: each call's
outcome is a value of the environment, and an exception raised by a service
is an `SvcResult.err` carrying the stringified message, mirroring Python's
`except Exception as e: ... str(e)`.
-/

/-- Outcome of a call into an external collaborator: a normal return or a
raised exception carrying its stringified message (`str(e)`). -/
inductive SvcResult (α : Type) where
  | ok : α → SvcResult α
  | err : String → SvcResult α
deriving Repr, DecidableEq

/-! ## Token accounting (`token_utils.py`) -/

/-- Environment for `count_tokens`: `encodingForModel` is
`tiktoken.encoding_for_model` (returns `none` where the Python raises
`KeyError` for an unknown model); `encode` is `encoding.encode`, keyed by
the encoding name. -/
structure TokenEnv where
  encodingForModel : String → Option String
  encode : String → String → List Nat

/-- What one `count_tokens` call computes and does: the returned count, the
encoding it resolved, whether the `KeyError` fallback fired (the logged
warning), and whether `encoding.encode` was invoked. -/
structure CountResult where
  count : Nat
  usedEncoding : String
  warnedFallback : Bool
  encodeInvoked : Bool
deriving Repr, DecidableEq

/-- `token_utils.count_tokens`: resolve the encoding for `model`, falling
back to `cl100k_base` with a logged warning when the lookup raises
`KeyError`; return 0 for falsy (empty) text before calling `encode`,
otherwise the length of the encoded token list. -/
def count_tokens (env : TokenEnv) (text model : String) : CountResult :=
  let fallback := env.encodingForModel model
  let enc := match fallback with
    | some e => e
    | none => "cl100k_base"
  let warned := fallback.isNone
  if text = "" then
    { count := 0, usedEncoding := enc, warnedFallback := warned,
      encodeInvoked := false }
  else
    { count := (env.encode enc text).length, usedEncoding := enc,
      warnedFallback := warned, encodeInvoked := true }

/-! ## FAQ matcher

No FAQ-matching code is present among the repository's source files: only
the spec describes the component (its §4.6 contract and algorithm). The
definitions below are therefore modelled from the spec. -/

/-- Modelled from the spec: the `FAQEntry` record of §3, with `keywords`
stored as the comma-separated keyword list that §4.6 says each FAQ holds. -/
structure FAQEntry where
  question : String
  answer : String
  keywords : String
  category : String
deriving Repr, DecidableEq

/-- Whitespace characters removed by Python `str.strip()` / split on by
`str.split()`. -/
def isPyWhitespace (c : Char) : Bool :=
  c = ' ' ∨ c = '\t' ∨ c = '\n' ∨ c = '\r' ∨ c = '\x0b' ∨ c = '\x0c'

/-- Python `str.strip()` on a character list. -/
def pyStrip (s : List Char) : List Char :=
  ((s.dropWhile isPyWhitespace).reverse.dropWhile isPyWhitespace).reverse

/-- Python `str.strip()` on a `String`. -/
def pyStripStr (s : String) : String :=
  ⟨pyStrip s.data⟩

/-- First-seen-order deduplication of a list (set formation that keeps the
order in which elements first appear). -/
def dedupFirstSeen (l : List String) : List String :=
  l.foldl (fun acc w => if w ∈ acc then acc else acc ++ [w]) []

/-- Modelled from the spec: §4.6 query normalization — lower-case the query,
strip punctuation (characters that are neither alphanumeric nor whitespace),
and split it into a word set. -/
def queryWords (q : String) : List String :=
  let cleaned := (q.data.map Char.toLower).filter
    (fun c => c.isAlphanum ∨ isPyWhitespace c)
  dedupFirstSeen (((String.mk cleaned).split isPyWhitespace).filter (· ≠ ""))

/-- Modelled from the spec: §4.6 keyword-set formation — split the stored
comma-separated keyword list, trim whitespace, drop empties, deduplicate. -/
def faqKeywords (f : FAQEntry) : List String :=
  dedupFirstSeen (((f.keywords.splitOn ",").map pyStripStr).filter (· ≠ ""))

/-- Modelled from the spec: §4.6 score
`|query_words ∩ faq_keywords| / max(|query_words|, |faq_keywords|)`. -/
def faqScore (q : String) (f : FAQEntry) : ℚ :=
  let qw := queryWords q
  let kw := faqKeywords f
  ((qw.filter (· ∈ kw)).length : ℚ) / (max qw.length kw.length : ℚ)

/-- Modelled from the spec: the §4.6 tracking loop — skip FAQs with an empty
keyword set; accept a FAQ when its score is ≥ the threshold and strictly
greater than the best score seen so far (so the first-seen FAQ wins ties). -/
def matchGo (t : ℚ) (q : String) :
    List FAQEntry → Option FAQEntry → ℚ → Option FAQEntry
  | [], best, _ => best
  | f :: rest, best, bestScore =>
    if faqKeywords f = [] then matchGo t q rest best bestScore
    else if t ≤ faqScore q f ∧ bestScore < faqScore q f then
      matchGo t q rest (some f) (faqScore q f)
    else matchGo t q rest best bestScore

/-- Modelled from the spec: `match(query, faqs, threshold=0.7)` of §4.6,
returning the single highest-scoring FAQ that clears the threshold, or
`none` when no FAQ does. -/
def matchFAQ (q : String) (faqs : List FAQEntry) (t : ℚ := 7/10) :
    Option FAQEntry :=
  matchGo t q faqs none 0

/-- Invariant of the §4.6 tracking loop, used to settle C1. -/
theorem matchGo_spec (t : ℚ) (q : String) (faqs : List FAQEntry)
    (ht : 0 < t) :
    ∀ (seen : List FAQEntry) (best : Option FAQEntry) (bestScore : ℚ)
      (hbest : (best = none ∧ bestScore = 0 ∧
          ∀ g ∈ seen, faqKeywords g ≠ [] → faqScore q g < t) ∨
        (∃ l₁ l₂ f, best = some f ∧ bestScore = faqScore q f ∧
          seen = l₁ ++ f :: l₂ ∧ faqKeywords f ≠ [] ∧ t ≤ faqScore q f ∧
          (∀ g ∈ l₁, faqKeywords g ≠ [] → faqScore q g < faqScore q f) ∧
          (∀ g ∈ l₂, faqKeywords g ≠ [] → faqScore q g ≤ faqScore q f))),
      (matchGo t q faqs best bestScore = none →
        ∀ g ∈ seen ++ faqs, faqKeywords g ≠ [] → faqScore q g < t) ∧
      (∀ f, matchGo t q faqs best bestScore = some f →
        ∃ l₁ l₂, seen ++ faqs = l₁ ++ f :: l₂ ∧ faqKeywords f ≠ [] ∧
          t ≤ faqScore q f ∧
          (∀ g ∈ l₁, faqKeywords g ≠ [] → faqScore q g < faqScore q f) ∧
          (∀ g ∈ l₂, faqKeywords g ≠ [] → faqScore q g ≤ faqScore q f)) := by
  induction faqs with
  | nil =>
    intro seen best bestScore hbest
    constructor
    · intro hnone g hg hkw
      simp only [List.append_nil] at hg
      rcases hbest with ⟨hb, _, hall⟩ | ⟨l₁, l₂, f, hb, _, _, _, _, _, _⟩
      · exact hall g hg hkw
      · simp [matchGo, hb] at hnone
    · intro f hf
      simp only [matchGo] at hf
      rcases hbest with ⟨hb, _, _⟩ | ⟨l₁, l₂, f', hb, _, hseen, hkw, hsc, h₁, h₂⟩
      · rw [hb] at hf; exact absurd hf (by simp)
      · rw [hb] at hf
        obtain rfl : f' = f := by injection hf
        exact ⟨l₁, l₂, by simpa using hseen, hkw, hsc, h₁, h₂⟩
  | cons a rest ih =>
    intro seen best bestScore hbest
    by_cases hkw : faqKeywords a = []
    · have := ih (seen ++ [a]) best bestScore ?_
      · constructor
        · intro hnone g hg
          have h := this.1 (by simpa [matchGo, hkw] using hnone) g
          simp only [List.append_assoc, List.cons_append, List.nil_append] at h
          exact h hg
        · intro f hf
          have h := this.2 f (by simpa [matchGo, hkw] using hf)
          simpa using h
      · rcases hbest with ⟨hb, hs, hall⟩ | ⟨l₁, l₂, f, hb, hs, hseen, h⟩
        · refine Or.inl ⟨hb, hs, ?_⟩
          intro g hg hg'
          rcases List.mem_append.1 hg with h | h
          · exact hall g h hg'
          · simp only [List.mem_singleton] at h
            subst h; exact absurd hg' (by simp [hkw])
        · refine Or.inr ⟨l₁, l₂ ++ [a], f, hb, hs, by simp [hseen], h.1, h.2.1, h.2.2.1, ?_⟩
          intro g hg hg'
          rcases List.mem_append.1 hg with h' | h'
          · exact h.2.2.2 g h' hg'
          · simp only [List.mem_singleton] at h'
            subst h'; exact absurd hg' (by simp [hkw])
    · by_cases hacc : t ≤ faqScore q a ∧ bestScore < faqScore q a
      · have := ih (seen ++ [a]) (some a) (faqScore q a) ?_
        · constructor
          · intro hnone g hg
            have h := this.1 (by simpa [matchGo, hkw, hacc] using hnone) g
            simp only [List.append_assoc, List.cons_append, List.nil_append] at h
            exact h hg
          · intro f hf
            have h := this.2 f (by simpa [matchGo, hkw, hacc] using hf)
            simpa using h
        · refine Or.inr ⟨seen, [], a, rfl, rfl, by simp, hkw, hacc.1, ?_, by simp⟩
          intro g hg hg'
          rcases hbest with ⟨_, hs, hall⟩ | ⟨l₁, l₂, f, _, hs, hseen, h⟩
          · calc faqScore q g < t := hall g hg hg'
              _ ≤ faqScore q a := hacc.1
          · subst hseen
            rcases List.mem_append.1 hg with h' | h'
            · calc faqScore q g < faqScore q f := h.2.2.1 g h' hg'
                _ < faqScore q a := hs ▸ hacc.2
            · rcases List.mem_cons.1 h' with h'' | h''
              · subst h''; exact hs ▸ hacc.2
              · calc faqScore q g ≤ faqScore q f := h.2.2.2 g h'' hg'
                  _ < faqScore q a := hs ▸ hacc.2
      · have := ih (seen ++ [a]) best bestScore ?_
        · constructor
          · intro hnone g hg
            have h := this.1 (by simpa [matchGo, hkw, hacc] using hnone) g
            simp only [List.append_assoc, List.cons_append, List.nil_append] at h
            exact h hg
          · intro f hf
            have h := this.2 f (by simpa [matchGo, hkw, hacc] using hf)
            simpa using h
        · rcases hbest with ⟨hb, hs, hall⟩ | ⟨l₁, l₂, f, hb, hs, hseen, h⟩
          · refine Or.inl ⟨hb, hs, ?_⟩
            intro g hg hg'
            rcases List.mem_append.1 hg with h' | h'
            · exact hall g h' hg'
            · simp only [List.mem_singleton] at h'
              subst h'
              by_contra hcon
              push_neg at hcon
              exact hacc ⟨hcon, hs ▸ lt_of_lt_of_le ht hcon⟩
          · refine Or.inr ⟨l₁, l₂ ++ [a], f, hb, hs, by simp [hseen], h.1, h.2.1, h.2.2.1, ?_⟩
            intro g hg hg'
            rcases List.mem_append.1 hg with h' | h'
            · exact h.2.2.2 g h' hg'
            · simp only [List.mem_singleton] at h'
              subst h'
              by_contra hcon
              push_neg at hcon
              exact hacc ⟨h.2.1.trans hcon.le, hs ▸ hcon⟩

/-- C1: match(query, faqs, threshold) normalizes and word-splits the query,
scores each FAQ as intersection size over max set size, skips FAQs with an
empty keyword set, returns the single highest-scoring FAQ whose score
reaches the threshold with the first-seen FAQ winning ties, and returns
none when no FAQ clears the threshold; a match is the stored entry itself
(its answer verbatim), no completion engine being involved. -/
theorem faq_match_correct (t : ℚ) (q : String) (faqs : List FAQEntry)
    (ht : 0 < t) :
    (matchFAQ q faqs t = none →
      ∀ g ∈ faqs, faqKeywords g ≠ [] → faqScore q g < t) ∧
    (∀ f, matchFAQ q faqs t = some f →
      ∃ l₁ l₂, faqs = l₁ ++ f :: l₂ ∧ faqKeywords f ≠ [] ∧
        t ≤ faqScore q f ∧
        (∀ g ∈ l₁, faqKeywords g ≠ [] → faqScore q g < faqScore q f) ∧
        (∀ g ∈ l₂, faqKeywords g ≠ [] → faqScore q g ≤ faqScore q f)) := by
  have h := matchGo_spec t q faqs ht [] none 0 (Or.inl ⟨rfl, rfl, by simp⟩)
  simpa [matchFAQ] using h

/-- A concrete FAQ used to exercise the matcher. -/
def faqDemo : FAQEntry :=
  { question := "How do I reset my password?",
    answer := "Click Forgot Password on the login page.",
    keywords := "reset,password",
    category := "account" }

/-- Witness for `faq_match_correct` at a concrete threshold, query and FAQ
list. -/
theorem faq_match_correct_witness :
    0 < (7/10 : ℚ) ∧
    ((matchFAQ "reset password" [faqDemo] (7/10) = none →
      ∀ g ∈ [faqDemo], faqKeywords g ≠ [] →
        faqScore "reset password" g < 7/10) ∧
    (∀ f, matchFAQ "reset password" [faqDemo] (7/10) = some f →
      ∃ l₁ l₂, [faqDemo] = l₁ ++ f :: l₂ ∧ faqKeywords f ≠ [] ∧
        (7/10 : ℚ) ≤ faqScore "reset password" f ∧
        (∀ g ∈ l₁, faqKeywords g ≠ [] →
          faqScore "reset password" g < faqScore "reset password" f) ∧
        (∀ g ∈ l₂, faqKeywords g ≠ [] →
          faqScore "reset password" g ≤ faqScore "reset password" f))) :=
  ⟨by norm_num,
   faq_match_correct (7/10) "reset password" [faqDemo] (by norm_num)⟩

/-- C9: count_tokens never fails the caller: an unrecognized model falls
back to the cl100k_base scheme with a logged warning rather than raising,
and an empty text yields 0 without invoking the encoder. -/
theorem count_tokens_fallback_and_empty (env : TokenEnv) (text model : String) :
    (env.encodingForModel model = none →
      (count_tokens env text model).usedEncoding = "cl100k_base" ∧
      (count_tokens env text model).warnedFallback = true) ∧
    (text = "" →
      (count_tokens env text model).count = 0 ∧
      (count_tokens env text model).encodeInvoked = false) := by
  refine ⟨fun h => ?_, fun h => ?_⟩
  · unfold count_tokens
    rw [h]
    by_cases ht : text = "" <;> simp [ht]
  · unfold count_tokens
    rw [h]
    simp

/-- A concrete tokenizer environment: only gpt-4o is a known model, and any
encoding tokenizes a text into one token per character. -/
def tokenEnvDemo : TokenEnv :=
  { encodingForModel := fun m => if m = "gpt-4o" then some "o200k_base" else none,
    encode := fun _ t => List.replicate t.length 0 }

/-- Witness for `count_tokens_fallback_and_empty` at a concrete environment,
text and model. -/
theorem count_tokens_fallback_and_empty_witness :
    (count_tokens tokenEnvDemo "" "unknown-model").usedEncoding = "cl100k_base" ∧
    (count_tokens tokenEnvDemo "" "unknown-model").warnedFallback = true ∧
    (count_tokens tokenEnvDemo "" "unknown-model").count = 0 ∧
    (count_tokens tokenEnvDemo "" "unknown-model").encodeInvoked = false := by
  have h := count_tokens_fallback_and_empty tokenEnvDemo "" "unknown-model"
  have h1 := h.1 (by decide)
  have h2 := h.2 rfl
  exact ⟨h1.1, h1.2, h2.1, h2.2⟩

/-! ## Chunker

`KnowledgeBaseHandler.__init__` configures langchain's
`RecursiveCharacterTextSplitter` with `chunk_size=1000`,
`chunk_overlap=200` and `separators=["\n\n", "\n", ".", " ", ""]` (the
library defaults: `keep_separator=True`, literal separators, length =
`len`, `strip_whitespace=True`). The splitter itself is library code the
handler calls; it is embedded here over `List Char` so the chunk sequences
the handler produces can be computed and reasoned about. -/

/-- A Python string of the chunking layer, as its character list. -/
abbrev Chars := List Char

/-- Sum of the lengths of a list of pieces (the running `total` that
`_merge_splits` maintains when the merge separator is `""`). -/
def sumLen (l : List Chars) : Nat := (l.map List.length).sum

/-- Helper of `splitOnList`: split on each occurrence of the non-empty
literal `sep`, accumulating the current piece reversed. The text shrinks
strictly at every step, so with `fuel` at least the text's length the
fuel-0 fallback is unreachable; fuel keeps the recursion structural so the
kernel can evaluate it. -/
def splitOnAux (sep : Chars) : Nat → Chars → Chars → List Chars
  | _, [], acc => [acc.reverse]
  | 0, text, acc => [acc.reverse ++ text]
  | fuel + 1, c :: rest, acc =>
    if sep.isPrefixOf (c :: rest) then
      acc.reverse :: splitOnAux sep fuel (List.drop (sep.length - 1) rest) []
    else
      splitOnAux sep fuel rest (c :: acc)

/-- Python `re.split(re.escape(sep), text)` for a non-empty literal
separator: the pieces between occurrences, empty pieces included. -/
def splitOnList (sep text : Chars) : List Chars :=
  splitOnAux sep text.length text []

/-- langchain `_split_text_with_regex` for a literal separator with
`keep_separator=True`: split on the separator, re-attach each separator
occurrence to the front of the following piece (the empty separator splits
into single characters), and drop empty pieces. -/
def splitTextWithSep (sep text : Chars) : List Chars :=
  let raw : List Chars :=
    if sep = [] then text.map (fun c => [c])
    else
      match splitOnList sep text with
      | [] => []
      | p :: ps => p :: ps.map (fun s => sep ++ s)
  raw.filter (· ≠ [])

/-- Python `separator.join(docs)`. -/
def joinSep (sep : Chars) : List Chars → Chars
  | [] => []
  | [d] => d
  | d :: ds => d ++ sep ++ joinSep sep ds

/-- langchain `TextSplitter._join_docs` with the default
`strip_whitespace=True`: join, strip, return `none` for an empty result. -/
def joinDocs (sep : Chars) (docs : List Chars) : Option Chars :=
  let text := pyStrip (joinSep sep docs)
  if text = [] then none else some text

/-- The pop-while loop inside langchain `TextSplitter._merge_splits`: keep
dropping the oldest retained split while the retained total exceeds the
chunk overlap, or while the incoming split of length `dLen` would not fit
into the chunk and something is retained. Returns the retained splits and
the updated running total. On `[]` the loop condition is false whenever
`total` is the true total of the retained splits (then `total = 0`), so the
`[]` clause returns directly, as Python's loop exit does. -/
def popLoop (chunkSize chunkOverlap sepLen dLen : Nat) :
    List Chars → Int → List Chars × Int
  | [], total => ([], total)
  | d :: rest, total =>
    if total > (chunkOverlap : Int) ∨
        (total + (dLen : Int) +
            (if (d :: rest).length > 1 then (sepLen : Int) else 0) >
          (chunkSize : Int) ∧ total > 0) then
      popLoop chunkSize chunkOverlap sepLen dLen rest
        (total -
          ((d.length : Int) +
            if (d :: rest).length > 1 then (sepLen : Int) else 0))
    else (d :: rest, total)

/-- State of the accumulation loop of `_merge_splits`: the chunks emitted so
far (`docs`), the retained splits (`current_doc`) and the running
`total`. -/
structure MergeState where
  docs : List Chars
  currentDoc : List Chars
  total : Int
deriving Repr, DecidableEq

/-- One iteration of the `for d in splits` loop of langchain
`TextSplitter._merge_splits`: on overflow, join and emit the retained
splits and run the pop loop; then append `d` and update the total. -/
def mergeStep (chunkSize chunkOverlap : Nat) (sep : Chars)
    (st : MergeState) (d : Chars) : MergeState :=
  let sepLen : Int := sep.length
  let len : Int := d.length
  let st1 :=
    if st.total + len +
        (if st.currentDoc.length > 0 then sepLen else 0) > (chunkSize : Int) then
      if st.currentDoc.length > 0 then
        let docs := st.docs ++ (joinDocs sep st.currentDoc).toList
        let pr := popLoop chunkSize chunkOverlap sep.length d.length
          st.currentDoc st.total
        { docs := docs, currentDoc := pr.1, total := pr.2 }
      else st
    else st
  let newCur := st1.currentDoc ++ [d]
  { docs := st1.docs, currentDoc := newCur,
    total := st1.total + len + (if newCur.length > 1 then sepLen else 0) }

/-- langchain `TextSplitter._merge_splits`: fold the loop over the splits,
then join and emit what remains retained. -/
def mergeSplits (chunkSize chunkOverlap : Nat) (sep : Chars)
    (splits : List Chars) : List Chars :=
  let fin := splits.foldl (mergeStep chunkSize chunkOverlap sep) ⟨[], [], 0⟩
  fin.docs ++ (joinDocs sep fin.currentDoc).toList

/-- Python `re.search(re.escape(sep), text)` for a literal separator:
whether `sep` occurs in `text` at some position. -/
def occursIn (sep : Chars) : Chars → Bool
  | [] => sep.isPrefixOf []
  | c :: rest => sep.isPrefixOf (c :: rest) || occursIn sep rest

/-- The separator-selection loop at the head of
`RecursiveCharacterTextSplitter._split_text`: take the first separator that
is empty (keeping no further separators) or occurs in the text (keeping the
rest of the list after it); default to `separators[-1]`, passed as
`dflt`. -/
def pickSep (dflt : Chars) : List Chars → Chars → Chars × List Chars
  | [], _ => (dflt, [])
  | s :: rest, text =>
    if s = [] then (s, [])
    else if occursIn s text then (s, rest)
    else pickSep dflt rest text

/-- The kept separator list of `pickSep` is strictly shorter than the input
list, or empty. -/
theorem pickSep_keeps_lt (dflt : Chars) (seps : List Chars) (text : Chars) :
    (pickSep dflt seps text).2.length < seps.length ∨
      (pickSep dflt seps text).2 = [] := by
  induction seps with
  | nil => exact Or.inr rfl
  | cons s rest ih =>
    simp only [pickSep]
    by_cases h0 : s = []
    · simp [h0]
    · by_cases h1 : occursIn s text
      · simp [h0, h1, Nat.lt_succ_self]
      · rcases ih with h | h
        · exact Or.inl (by simpa [h0, h1] using Nat.lt_succ_of_lt h)
        · exact Or.inr (by simpa [h0, h1] using h)

/-- The per-split dispatch loop of `_split_text`: splits shorter than the
chunk size accumulate as good splits; an oversized split first flushes the
accumulated good splits through `_merge_splits` (merge separator `""` since
`keep_separator=True`), then is emitted as-is when no separators are left,
or handled by `recFn` (the recursive `_split_text` call) otherwise. -/
def splitLoop (chunkSize chunkOverlap : Nat) (recFn : Chars → List Chars)
    (noMoreSeps : Bool) : List Chars → List Chars → List Chars
  | [], good =>
    if good ≠ [] then mergeSplits chunkSize chunkOverlap [] good else []
  | s :: rest, good =>
    if s.length < chunkSize then
      splitLoop chunkSize chunkOverlap recFn noMoreSeps rest (good ++ [s])
    else
      (if good ≠ [] then mergeSplits chunkSize chunkOverlap [] good else []) ++
      (if noMoreSeps then [s] else recFn s) ++
      splitLoop chunkSize chunkOverlap recFn noMoreSeps rest []

/-- langchain `RecursiveCharacterTextSplitter._split_text` with literal
separators and `keep_separator=True`, structurally recursive on a fuel
argument so that the kernel can evaluate it. The source's recursion is on
the separator list, which shrinks strictly at every recursive call
(`pickSep_keeps_lt`, and `splitLoop` recurses only when the kept list is
non-empty), so with `fuel` at least the separator list's length the fuel-0
fallback is unreachable. -/
def splitTextGo (chunkSize chunkOverlap : Nat) :
    Nat → List Chars → Chars → List Chars
  | 0, _, text => [text]
  | fuel + 1, seps, text =>
    let pr := pickSep (seps.getLastD []) seps text
    let splits := splitTextWithSep pr.1 text
    splitLoop chunkSize chunkOverlap
      (fun s => splitTextGo chunkSize chunkOverlap fuel pr.2 s)
      pr.2.isEmpty splits []

/-- `_split_text(text, separators)` at the top level: the fuel is the
separator list's length, which bounds the recursion depth. -/
def splitTextRec (chunkSize chunkOverlap : Nat) (seps : List Chars)
    (text : Chars) : List Chars :=
  splitTextGo chunkSize chunkOverlap seps.length seps text

/-- `CHUNK_SIZE` of `knowledge_base_handler.py`. -/
def CHUNK_SIZE : Nat := 1000

/-- `CHUNK_OVERLAP` of `knowledge_base_handler.py`. -/
def CHUNK_OVERLAP : Nat := 200

/-- The separator list the handler passes to the splitter. -/
def kbSeparators : List Chars :=
  ["\n\n".data, "\n".data, ".".data, " ".data, "".data]

/-- `text_splitter.split_text` on one document's text, as configured in
`KnowledgeBaseHandler.__init__`. -/
def splitDocumentText (text : Chars) : List Chars :=
  splitTextRec CHUNK_SIZE CHUNK_OVERLAP kbSeparators text

/-- C8 (amended): whenever `_merge_splits` carries retained splits over into
the next chunk, the pop loop first shrinks them until their total length is
at most the chunk overlap — so adjacent chunks share at most
`CHUNK_OVERLAP` characters (possibly fewer, including none), not exactly
`CHUNK_OVERLAP`. Stated of `popLoop` with the merge separator `""` used by
the handler's configuration (`keep_separator=True`): if `total` is the true
total length of the retained splits, the loop's result is bounded by the
overlap and again carries its true total. -/
theorem popLoop_retained_le_overlap (chunkSize chunkOverlap dLen : Nat)
    (cur : List Chars) (total : Int)
    (hinv : total = (sumLen cur : Int)) :
    (popLoop chunkSize chunkOverlap 0 dLen cur total).2 ≤ (chunkOverlap : Int) ∧
    (popLoop chunkSize chunkOverlap 0 dLen cur total).2 =
      (sumLen (popLoop chunkSize chunkOverlap 0 dLen cur total).1 : Int) := by
  induction cur generalizing total with
  | nil =>
    subst hinv
    simp [popLoop, sumLen]
  | cons d rest ih =>
    simp only [popLoop, Nat.cast_zero, ite_self, add_zero]
    split
    · refine ih _ ?_
      have hsum : (sumLen (d :: rest) : Int) =
          (d.length : Int) + (sumLen rest : Int) := by
        simp [sumLen]
      omega
    · rename_i hc
      push_neg at hc
      exact ⟨hc.1, hinv⟩

set_option maxRecDepth 10000 in
/-- Witness for `popLoop_retained_le_overlap` at the concrete merge state
arising from the two-paragraph document of the counterexample. -/
theorem popLoop_retained_le_overlap_witness :
    (600 : Int) = (sumLen [List.replicate 600 'A'] : Int) ∧
    (popLoop 1000 200 0 602 [List.replicate 600 'A'] 600).2 ≤ (200 : Int) := by
  have h := popLoop_retained_le_overlap 1000 200 602 [List.replicate 600 'A']
    600 (by decide)
  exact ⟨by decide, h.1⟩

set_option maxRecDepth 10000 in
/-- C8 counterexample: the document made of a 600-character paragraph, a
paragraph break, and another 600-character paragraph is split into exactly
those two paragraphs as chunks, and the trailing `CHUNK_OVERLAP` (200)
characters of the first chunk's span (200 letters A) are not the leading
200 characters of the second chunk's span (200 letters B): the overlap
invariant as stated fails, the shared overlap here being empty. -/
theorem chunk_overlap_exact_counterexample :
    splitDocumentText
        (List.replicate 600 'A' ++ "\n\n".data ++ List.replicate 600 'B') =
      [List.replicate 600 'A', List.replicate 600 'B'] ∧
    ¬ ((List.replicate 600 'A').drop
          ((List.replicate 600 'A').length - CHUNK_OVERLAP) =
        (List.replicate 600 'B').take CHUNK_OVERLAP) := by
  decide

/-! ## Knowledge-base querying (`KnowledgeBaseHandler.query_knowledge_base`)

The vector store, the embedding service and the completion engine are
external collaborators; a `QueryEnv` fixes the outcome of each call the
method makes. `retrieval` abstracts the vector-store initialization plus
`retriever.get_relevant_documents(query)` (an `err` covers any exception on
that path: an embedding-service failure, a Chroma failure, or the
`ValueError` when the store cannot be initialized); `completion` abstracts
`llm.invoke(messages).content`. The method's `try/except Exception` is
inlined: every `err` flows to the handler that returns the formatted
error-message dictionary. -/

/-- A retrieved langchain document: its text and its `source` metadata
entry (absent when the metadata has no `source` key). -/
structure KBDoc where
  page_content : String
  source : Option String
deriving Repr, DecidableEq

/-- Outcomes of the external calls `query_knowledge_base` makes. -/
structure QueryEnv where
  retrieval : SvcResult (List KBDoc)
  completion : SvcResult String

/-- The dictionary `query_knowledge_base` returns. The code always fills
`answer` with a string (`some`); the `Option` lets the spec's
`answer: null` be stated and compared against. -/
structure KBResult where
  answer : Option String
  sources : List String
deriving Repr, DecidableEq

/-- One request to the completion engine: the model, the temperature and
the (role, content) messages, in order. -/
structure CompletionCall where
  model : String
  temperature : Nat
  messages : List (String × String)
deriving Repr, DecidableEq

/-- The fixed no-results answer of `query_knowledge_base`. -/
def kbNoInfoAnswer : String :=
  "I couldn't find any relevant information in my knowledge base for that question."

/-- The formatted error answer of `query_knowledge_base`'s `except` branch:
the user-facing string built from the caught exception's message. -/
def kbErrorAnswer (e : String) : String :=
  "I encountered an error while searching the knowledge base: " ++ e

/-- The fixed system message of the context-grounded completion call. -/
def kbSystemMessage : String :=
  "You are an AI assistant answering questions based on provided context."

/-- The grounded prompt `query_knowledge_base` builds (the f-string with
the retrieved context and the question spliced in). -/
def kbPrompt (context query : String) : String :=
  "\n            Answer the following question based on the provided context. If the context doesn't contain relevant information, say so.\n            \n            Context:\n            " ++
    context ++
    "\n            \n            Question: " ++ query ++
    "\n            \n            Answer:\n            "

/-- Python `os.path.basename` for POSIX paths. -/
def pyBasename (p : String) : String :=
  (p.splitOn "/").getLastD ""

/-- The source-attribution loop of `query_knowledge_base`: each document's
`source` metadata, reduced to its basename, deduplicated first-seen. -/
def extractSources (docs : List KBDoc) : List String :=
  docs.foldl (fun acc doc =>
    match doc.source with
    | some p => if pyBasename p ∈ acc then acc else acc ++ [pyBasename p]
    | none => acc) []

/-- `KnowledgeBaseHandler.query_knowledge_base`, with its `try/except`
inlined. Returns the result dictionary and, as a trace, the completion
request it issued (if any): no documents -> the fixed no-information
answer without a completion call; otherwise a single grounded completion
call at temperature 0; any exception (an `err` of the environment) is
caught and turned into the formatted error answer with empty sources. -/
def query_knowledge_base (env : QueryEnv) (query : String) :
    KBResult × Option CompletionCall :=
  match env.retrieval with
  | SvcResult.err e => ({ answer := some (kbErrorAnswer e), sources := [] }, none)
  | SvcResult.ok docs =>
    if docs.isEmpty then
      ({ answer := some kbNoInfoAnswer, sources := [] }, none)
    else
      let context := String.intercalate "\n\n" (docs.map (·.page_content))
      let call : CompletionCall :=
        { model := "gpt-4o", temperature := 0,
          messages := [("system", kbSystemMessage),
                       ("user", kbPrompt context query)] }
      match env.completion with
      | SvcResult.err e =>
        ({ answer := some (kbErrorAnswer e), sources := [] }, some call)
      | SvcResult.ok content =>
        ({ answer := some content, sources := extractSources docs }, some call)

/-- C2 counterexample: with zero retrieval results the code does not return
`{answer: null, sources: []}` — the answer is the fixed non-null
no-information string. -/
theorem kb_empty_answer_counterexample :
    (query_knowledge_base
        { retrieval := SvcResult.ok [], completion := SvcResult.ok "" }
        "What is the weather").1.answer ≠ none ∧
    (query_knowledge_base
        { retrieval := SvcResult.ok [], completion := SvcResult.ok "" }
        "What is the weather").1.answer = some kbNoInfoAnswer := by
  constructor <;> decide

/-- C2 (amended): for every query whose similarity retrieval returns zero
results, `query_knowledge_base` returns the explicit empty-result
dictionary with the fixed no-information answer string (not null) and
`sources = []`, issues no completion call, and never raises (the model is
total: every exception of the environment is caught and converted to a
result value). -/
theorem kb_empty_retrieval_result (env : QueryEnv) (q : String)
    (h : env.retrieval = SvcResult.ok []) :
    query_knowledge_base env q =
      ({ answer := some kbNoInfoAnswer, sources := [] }, none) := by
  unfold query_knowledge_base
  rw [h]
  simp

/-- Witness for `kb_empty_retrieval_result` at a concrete environment and
query. -/
theorem kb_empty_retrieval_result_witness :
    ({ retrieval := SvcResult.ok [], completion := SvcResult.ok "hi" } :
        QueryEnv).retrieval = SvcResult.ok [] ∧
    query_knowledge_base
        { retrieval := SvcResult.ok [], completion := SvcResult.ok "hi" }
        "What is the weather" =
      ({ answer := some kbNoInfoAnswer, sources := [] }, none) :=
  ⟨rfl,
   kb_empty_retrieval_result
     { retrieval := SvcResult.ok [], completion := SvcResult.ok "hi" }
     "What is the weather" rfl⟩

/-- C3 counterexample: a failure of the external service during a
knowledge-base query does not propagate: `query_knowledge_base` catches it
and itself formats a user-facing error string, returning it as an ordinary
answer with empty sources. -/
theorem kb_error_counterexample :
    (query_knowledge_base
        { retrieval := SvcResult.err "boom", completion := SvcResult.ok "" }
        "q").1 =
      { answer :=
          some "I encountered an error while searching the knowledge base: boom",
        sources := [] } := by
  decide

/-- C3 (amended): every embedding/retrieval or completion failure during
`query_knowledge_base` is caught inside the method and converted in-band
into `{answer: "I encountered an error while searching the knowledge base:
<e>", sources: []}`; no typed error reaches the caller, the core itself
formats the user-facing error string, and the failed call is not retried
(the trace shows at most one completion request). -/
theorem kb_error_caught_formatted (env : QueryEnv) (q e : String) :
    (env.retrieval = SvcResult.err e →
      query_knowledge_base env q =
        ({ answer := some (kbErrorAnswer e), sources := [] }, none)) ∧
    (∀ docs, env.retrieval = SvcResult.ok docs → docs ≠ [] →
      env.completion = SvcResult.err e →
      (query_knowledge_base env q).1 =
        { answer := some (kbErrorAnswer e), sources := [] }) := by
  constructor
  · intro h
    unfold query_knowledge_base
    rw [h]
  · intro docs hdocs hne hcomp
    unfold query_knowledge_base
    rw [hdocs, hcomp]
    simp [List.isEmpty_iff, hne]

/-- Witness for `kb_error_caught_formatted` at a concrete environment. -/
theorem kb_error_caught_formatted_witness :
    (({ retrieval := SvcResult.err "boom", completion := SvcResult.ok "" } :
        QueryEnv).retrieval = SvcResult.err "boom") ∧
    query_knowledge_base
        { retrieval := SvcResult.err "boom", completion := SvcResult.ok "" }
        "q" =
      ({ answer := some (kbErrorAnswer "boom"), sources := [] }, none) :=
  ⟨rfl,
   (kb_error_caught_formatted
     { retrieval := SvcResult.err "boom", completion := SvcResult.ok "" }
     "q" "boom").1 rfl⟩

/-- C7: every context-grounded answer invokes the completion engine exactly
once, with precisely the fixed system-role message plus one user message
carrying the instruction and the retrieved context, no prior conversation
turns (the prompt is those two messages only), and temperature 0. -/
theorem kb_grounded_call_shape (env : QueryEnv) (q : String)
    (docs : List KBDoc) (hret : env.retrieval = SvcResult.ok docs)
    (hne : docs ≠ []) :
    (query_knowledge_base env q).2 =
      some { model := "gpt-4o", temperature := 0,
             messages :=
               [("system", kbSystemMessage),
                ("user",
                  kbPrompt
                    (String.intercalate "\n\n" (docs.map (·.page_content)))
                    q)] } ∧
    ∀ c, (query_knowledge_base env q).2 = some c → c.messages.length = 2 := by
  unfold query_knowledge_base
  rw [hret]
  simp only [List.isEmpty_iff, hne, if_neg, ite_false]
  constructor
  · cases env.completion <;> rfl
  · intro c hc
    cases h : env.completion <;> rw [h] at hc <;>
      · injection hc with hc
        subst hc
        rfl

/-- Witness for `kb_grounded_call_shape` at a concrete environment with one
retrieved document. -/
theorem kb_grounded_call_shape_witness :
    (({ retrieval :=
          SvcResult.ok [{ page_content := "Refunds are available within 30 days.",
                          source := some "knowledge_base/refunds.txt" }],
        completion := SvcResult.ok "Within 30 days." } :
          QueryEnv).retrieval =
      SvcResult.ok [{ page_content := "Refunds are available within 30 days.",
                      source := some "knowledge_base/refunds.txt" }]) ∧
    ([({ page_content := "Refunds are available within 30 days.",
         source := some "knowledge_base/refunds.txt" } : KBDoc)] ≠ []) ∧
    (query_knowledge_base
        { retrieval :=
            SvcResult.ok [{ page_content := "Refunds are available within 30 days.",
                            source := some "knowledge_base/refunds.txt" }],
          completion := SvcResult.ok "Within 30 days." }
        "what is your refund policy").2 =
      some { model := "gpt-4o", temperature := 0,
             messages :=
               [("system", kbSystemMessage),
                ("user",
                  kbPrompt "Refunds are available within 30 days."
                    "what is your refund policy")] } := by
  refine ⟨rfl, by decide, ?_⟩
  have h := kb_grounded_call_shape
    { retrieval :=
        SvcResult.ok [{ page_content := "Refunds are available within 30 days.",
                        source := some "knowledge_base/refunds.txt" }],
      completion := SvcResult.ok "Within 30 days." }
    "what is your refund policy"
    [{ page_content := "Refunds are available within 30 days.",
       source := some "knowledge_base/refunds.txt" }] rfl (by decide)
  simpa using h.1

/-! ## Knowledge-base ingestion (`KnowledgeBaseHandler.load_knowledge_base`)

`load_document` reads a file (any read error is caught, logged and turned
into `[]`) and splits it with the configured splitter; `load_knowledge_base`
filters the listed files against `processed_files`, chunks each new file
while adding its path to `processed_files`, extends `documents`, and only
then adds the whole batch to the Chroma store. The store and the embedding
service are abstracted by `addResult`; an `err` there is caught by the
method's outer `except` and logged, leaving the already-mutated
`processed_files` and `documents` in place. -/

/-- A chunk held by the handler: its text and the `source` metadata (the
originating file path). -/
structure Chunk where
  page_content : Chars
  source : String
deriving Repr, DecidableEq

/-- The handler state the method mutates: `processed_files` (a set, kept as
a first-seen-ordered list), `documents`, and the vector store's contents
(`none` before any store exists). -/
structure KBState where
  processed_files : List String
  documents : List Chunk
  index : Option (List Chunk)
deriving Repr, DecidableEq

/-- Outcomes of the external calls `load_knowledge_base` makes: the
eligible `.txt`/`.md` files listed in the knowledge-base directory, each
file's read outcome, and the outcome of the batch add to the store
(embedding computation included). -/
structure IngestEnv where
  files : List String
  readFile : String → SvcResult String
  addResult : SvcResult Unit

/-- Modelled from the spec: the §4.3 `IngestReport` record. No such record
exists in the code — `load_knowledge_base` returns `None` on every path —
but the record is needed to state what the spec claims about the report. -/
structure IngestReport where
  chunks_added : Nat
  files_processed : Nat
  files_skipped : Nat
deriving Repr, DecidableEq

/-- `KnowledgeBaseHandler.load_document`: read the file (a read failure is
caught and yields `[]`), split the text with the configured splitter, and
attach the file path as each chunk's `source` metadata. -/
def load_document (env : IngestEnv) (file_path : String) : List Chunk :=
  match env.readFile file_path with
  | SvcResult.err _ => []
  | SvcResult.ok text =>
    (splitDocumentText text.data).map (fun c => ⟨c, file_path⟩)

/-- Python `set.add` on the ordered-list representation of a set. -/
def insertSet (s : List String) (x : String) : List String :=
  if x ∈ s then s else s ++ [x]

/-- `KnowledgeBaseHandler.load_knowledge_base`, returning the new state and
the method's return value. The Python returns `None` on every path (hence
`Option IngestReport` always `none`): there is no ingest report. The
per-file loop both accumulates chunks and adds the file to
`processed_files`; the batch add to the store happens after the loop, and
its failure is caught and logged by the outer `except`, mutations kept. -/
def load_knowledge_base (env : IngestEnv) (st : KBState) :
    KBState × Option IngestReport :=
  let new_files := env.files.filter (fun f => f ∉ st.processed_files)
  if new_files.isEmpty then
    (st, none)
  else
    let step := new_files.foldl
      (fun (acc : List Chunk × List String) f =>
        (acc.1 ++ load_document env f, insertSet acc.2 f))
      ([], st.processed_files)
    let all_chunks := step.1
    let st1 : KBState :=
      { processed_files := step.2,
        documents := st.documents ++ all_chunks,
        index := st.index }
    match env.addResult with
    | SvcResult.ok _ =>
      ({ st1 with index := some ((st.index.getD []) ++ all_chunks) }, none)
    | SvcResult.err _ => (st1, none)

/-- Membership is preserved by `insertSet`, and the inserted element is a
member. -/
theorem insertSet_mem (s : List String) (x f : String) :
    (f ∈ s → f ∈ insertSet s x) ∧ x ∈ insertSet s x := by
  unfold insertSet
  by_cases h : x ∈ s <;> simp [h]
  exact fun hf => Or.inl hf

/-- Every file of the per-file loop's input, and everything already in the
accumulated set, is in the set the loop produces. -/
theorem foldl_insertSet_mem (env : IngestEnv) (l : List String)
    (acc : List Chunk × List String) (f : String)
    (h : f ∈ acc.2 ∨ f ∈ l) :
    f ∈ (l.foldl (fun (acc : List Chunk × List String) g =>
        (acc.1 ++ load_document env g, insertSet acc.2 g)) acc).2 := by
  induction l generalizing acc with
  | nil => simpa using h
  | cons a rest ih =>
    simp only [List.foldl_cons]
    apply ih
    rcases h with h | h
    · exact Or.inl ((insertSet_mem acc.2 a f).1 h)
    · rcases List.mem_cons.1 h with rfl | h
      · exact Or.inl (insertSet_mem acc.2 f f).2
      · exact Or.inr h

/-- After `load_knowledge_base`, every listed file is in `processed_files`,
whatever the outcome of the batch add: the per-file loop marks each new
file before the add runs. -/
theorem load_marks_all_files (env : IngestEnv) (st : KBState) :
    ∀ f ∈ env.files, f ∈ (load_knowledge_base env st).1.processed_files := by
  intro f hf
  unfold load_knowledge_base
  by_cases hempty :
      (env.files.filter (fun f => f ∉ st.processed_files)).isEmpty
  · simp only [hempty, if_true]
    have hfil := List.isEmpty_iff.1 hempty
    by_contra hnot
    have : f ∈ env.files.filter (fun f => f ∉ st.processed_files) :=
      List.mem_filter.2 ⟨hf, by simpa using hnot⟩
    rw [hfil] at this
    simp at this
  · simp only [hempty, if_false, Bool.false_eq_true]
    have hmem : f ∈ ((env.files.filter (fun f => f ∉ st.processed_files)).foldl
        (fun (acc : List Chunk × List String) g =>
          (acc.1 ++ load_document env g, insertSet acc.2 g))
        ([], st.processed_files)).2 := by
      apply foldl_insertSet_mem
      by_cases hp : f ∈ st.processed_files
      · exact Or.inl hp
      · exact Or.inr (List.mem_filter.2 ⟨hf, by simpa using hp⟩)
    cases env.addResult <;> simpa using hmem

/-- C4 (amended): each source file is added to `processed_files` inside the
per-file chunking loop, before the Embedding Index add of the batch runs;
when the add fails, the store is left unchanged but every file of the batch
is nonetheless marked processed, so a retry skips those files instead of
re-attempting them (at-most-once marking, not the claimed
after-success-only marking). -/
theorem ingest_marks_despite_failed_add (env : IngestEnv) (st : KBState)
    (e : String) (herr : env.addResult = SvcResult.err e) :
    (load_knowledge_base env st).1.index = st.index ∧
    ∀ f ∈ env.files, f ∈ (load_knowledge_base env st).1.processed_files := by
  constructor
  · unfold load_knowledge_base
    split
    · rename_i u heq
      rw [herr] at heq
      cases heq
    · dsimp only
      split <;> rfl
  · exact load_marks_all_files env st

/-- The concrete ingestion environment of the failed-add scenario: one
eligible file that reads fine, a batch add that fails. -/
def ingestEnvFailedAdd : IngestEnv :=
  { files := ["knowledge_base/a.txt"],
    readFile := fun _ => SvcResult.ok "hello",
    addResult := SvcResult.err "EmbeddingServiceError" }

/-- The fresh handler state: nothing processed, no documents, no store. -/
def kbStateEmpty : KBState :=
  { processed_files := [], documents := [], index := none }

/-- C4 counterexample: with one new file and a failing batch add, the file
is marked processed although nothing was added to the index — contradicting
the claim that no file of the batch is marked processed when the add
fails. -/
theorem ingest_mark_counterexample :
    "knowledge_base/a.txt" ∈
      (load_knowledge_base ingestEnvFailedAdd kbStateEmpty).1.processed_files ∧
    (load_knowledge_base ingestEnvFailedAdd kbStateEmpty).1.index = none := by
  constructor <;> decide

/-- Witness for `ingest_marks_despite_failed_add` at the concrete failed-add
scenario. -/
theorem ingest_marks_despite_failed_add_witness :
    ingestEnvFailedAdd.addResult = SvcResult.err "EmbeddingServiceError" ∧
    (load_knowledge_base ingestEnvFailedAdd kbStateEmpty).1.index = none ∧
    "knowledge_base/a.txt" ∈
      (load_knowledge_base ingestEnvFailedAdd kbStateEmpty).1.processed_files := by
  have h := ingest_marks_despite_failed_add ingestEnvFailedAdd kbStateEmpty
    "EmbeddingServiceError" rfl
  exact ⟨rfl, h.1, h.2 "knowledge_base/a.txt" (by decide)⟩

/-- C6 (amended): re-ingesting with the same file list is a no-op: every
listed file is already in `processed_files` after the first call
(`load_marks_all_files`), so the second call filters every file out, logs
"No new files to process" and returns early — no file is re-chunked or
re-embedded and no chunk is added. However `load_knowledge_base` returns
`None` on every path: there is no `IngestReport`, hence no `files_skipped`
or `chunks_added` counter in any report. -/
theorem ingest_second_call_noop (env env₂ : IngestEnv) (st : KBState)
    (hfiles : env₂.files = env.files) :
    load_knowledge_base env₂ (load_knowledge_base env st).1 =
      ((load_knowledge_base env st).1, none) := by
  have hmark := load_marks_all_files env st
  have hfil : ∀ f ∈ env₂.files,
      f ∈ (load_knowledge_base env st).1.processed_files :=
    fun f hf => hmark f (hfiles ▸ hf)
  have hfilnil : (env₂.files.filter
      (fun f => decide (f ∉ (load_knowledge_base env st).1.processed_files))) =
        [] :=
    List.filter_eq_nil.2 (by intro f hf; simp [hfil f hf])
  conv_lhs => rw [load_knowledge_base]
  split
  · rfl
  · rename_i hcond
    rw [hfilnil] at hcond
    exact absurd rfl hcond

/-- The concrete ingestion environment of the idempotency scenario: one
eligible file, a successful add. -/
def ingestEnvOk : IngestEnv :=
  { files := ["knowledge_base/a.txt"],
    readFile := fun _ => SvcResult.ok "hello",
    addResult := SvcResult.ok () }

/-- Witness for `ingest_second_call_noop`: a concrete second call over the
same single file changes nothing and returns no report. -/
theorem ingest_second_call_noop_witness :
    ingestEnvOk.files = ingestEnvOk.files ∧
    load_knowledge_base ingestEnvOk (load_knowledge_base ingestEnvOk kbStateEmpty).1 =
      ((load_knowledge_base ingestEnvOk kbStateEmpty).1, none) :=
  ⟨rfl, ingest_second_call_noop ingestEnvOk ingestEnvOk kbStateEmpty rfl⟩

/-- C6 counterexample: the second call over the same unchanged file returns
`None` — not an `IngestReport`; in particular no report with
`chunks_added = 0` (or any `files_skipped` value) is produced. -/
theorem ingest_report_counterexample :
    (load_knowledge_base ingestEnvOk
        (load_knowledge_base ingestEnvOk kbStateEmpty).1).2 = none ∧
    ¬ ∃ r : IngestReport,
        (load_knowledge_base ingestEnvOk
            (load_knowledge_base ingestEnvOk kbStateEmpty).1).2 = some r ∧
          r.chunks_added = 0 := by
  have h : (load_knowledge_base ingestEnvOk
      (load_knowledge_base ingestEnvOk kbStateEmpty).1).2 = none := by
    decide
  refine ⟨h, ?_⟩
  rintro ⟨r, hr, -⟩
  rw [h] at hr
  cases hr

/-! ## Chat endpoint (`main.py` `chat`)

The database is modelled as the session's messages in timestamp order
(timestamps strictly increasing in insertion order, as `save_message`
commits them); `save_message` appends, `get_conversation_history` reads the
most recent `limit` messages in timestamp-descending order and reverses
them. `ChatEnv` fixes the outcome of `kb_handler.query_knowledge_base`
(which the endpoint wraps in its own `except`, leaving `kb_answer = None`
on an exception) and of `client.chat.completions.create`; the database
calls are taken as succeeding. The result carries effect traces: the
completion request issued (if any), whether the knowledge base was
queried, how many `count_tokens` calls ran (directly or via
`log_message`), and how many messages were saved. -/

/-- One stored chat message: its role and content (what
`get_conversation_history` reads back). -/
structure DBMessage where
  role : String
  content : String
deriving Repr, DecidableEq

/-- `SYSTEM_PROMPT` of `main.py`. -/
def SYSTEM_PROMPT : String :=
  "\nYou are a helpful, friendly customer support assistant. \nYour job is to provide clear, concise, and accurate information to customer queries.\nBe polite, professional, and empathetic in your responses.\nAlways prioritize information from the knowledge base when available.\nIf the knowledge base provides information relevant to the query, use that information in your response.\nIf you don't know the answer to a question and it's not in the knowledge base, be honest about it instead of making something up.\n"

/-- Outcomes of the external calls the `chat` endpoint makes. -/
structure ChatEnv where
  kb : SvcResult KBResult
  completion : SvcResult String

/-- The last `n` elements of a list, in order: the model of "order by
timestamp descending, limit n, then reverse". -/
def takeLast {α : Type} (n : Nat) (l : List α) : List α :=
  l.drop (l.length - n)

/-- `get_conversation_history`: the session's most recent `limit` messages,
oldest first. -/
def get_conversation_history (db : List DBMessage) (limit : Nat) :
    List DBMessage :=
  takeLast limit db

/-- The `kb_answer` and `sources` the endpoint ends up with: `None`/`[]`
when the knowledge base is disabled, and `None`/`[]` when the wrapped call
raised (the endpoint's inner `except` logs and continues). -/
def chatKbAnswer (env : ChatEnv) (use_kb : Bool) : Option String × List String :=
  if use_kb then
    match env.kb with
    | SvcResult.ok r => (r.answer, r.sources)
    | SvcResult.err _ => (none, [])
  else (none, [])

/-- Python truthiness of `kb_answer` as the endpoint tests it
(`if not kb_answer`): falsy when `None` or the empty string. -/
def optStrFalsy : Option String → Bool
  | none => true
  | some s => s = ""

/-- What one `chat` request returns and does. -/
structure ChatResult where
  reply : String
  status : Nat
  db : List DBMessage
  completionRequest : Option (List (String × String))
  kbQueried : Bool
  tokenCountCalls : Nat
  savedMessages : Nat
deriving Repr, DecidableEq

/-- The `chat` endpoint of `main.py`: reject blank input before any other
work; otherwise count tokens, save the user message, fetch the history
(which now includes the just-saved message), query the knowledge base when
enabled, build `[system] ++ history ++ [user]`, and fall back to the
completion engine exactly when `kb_answer` is falsy. A completion failure
aborts the `try` into the 500 handler (which logs the error through
`log_message`, a further token count). -/
def chat (env : ChatEnv) (db : List DBMessage) (user_input : String)
    (use_kb : Bool) : ChatResult :=
  if pyStripStr user_input = "" then
    { reply := "Please enter a message.", status := 200, db := db,
      completionRequest := none, kbQueried := false, tokenCountCalls := 0,
      savedMessages := 0 }
  else
    let db1 := db ++ [⟨"user", user_input⟩]
    let history := get_conversation_history db1 10
    let ka := chatKbAnswer env use_kb
    let messages := ("system", SYSTEM_PROMPT) ::
      history.map (fun m => (m.role, m.content)) ++ [("user", user_input)]
    if optStrFalsy ka.1 then
      match env.completion with
      | SvcResult.err e =>
        { reply := "An error occurred: " ++ e, status := 500, db := db1,
          completionRequest := some messages, kbQueried := use_kb,
          tokenCountCalls := 3, savedMessages := 1 }
      | SvcResult.ok content =>
        let answer := pyStripStr content
        { reply := answer, status := 200,
          db := db1 ++ [⟨"assistant", answer⟩],
          completionRequest := some messages, kbQueried := use_kb,
          tokenCountCalls := 3, savedMessages := 2 }
    else
      let answer := ka.1.getD ""
      { reply := answer, status := 200,
        db := db1 ++ [⟨"assistant", answer⟩],
        completionRequest := none, kbQueried := use_kb,
        tokenCountCalls := 3, savedMessages := 2 }

/-- C10: a POST /chat request whose message is empty or whitespace-only is
answered with the fixed reply "Please enter a message." immediately: the
knowledge base is not queried, the completion engine is not invoked, no
tokens are counted and nothing is saved to the database. -/
theorem chat_empty_message (env : ChatEnv) (db : List DBMessage)
    (user_input : String) (use_kb : Bool)
    (h : pyStripStr user_input = "") :
    chat env db user_input use_kb =
      { reply := "Please enter a message.", status := 200, db := db,
        completionRequest := none, kbQueried := false, tokenCountCalls := 0,
        savedMessages := 0 } := by
  unfold chat
  rw [h]
  simp

/-- The chat environment in which the knowledge base yields a null answer
and the completion engine replies normally. -/
def chatEnvNoKbAnswer : ChatEnv :=
  { kb := SvcResult.ok { answer := none, sources := [] },
    completion := SvcResult.ok "Hello!" }

set_option maxRecDepth 10000 in
/-- Witness for `chat_empty_message` at a whitespace-only message. -/
theorem chat_empty_message_witness :
    pyStripStr "   " = "" ∧
    chat chatEnvNoKbAnswer [] "   " true =
      { reply := "Please enter a message.", status := 200, db := [],
        completionRequest := none, kbQueried := false, tokenCountCalls := 0,
        savedMessages := 0 } :=
  ⟨by decide, chat_empty_message chatEnvNoKbAnswer [] "   " true (by decide)⟩

/-- Appending one element shifts the last-n window by one. -/
theorem takeLast_append_one {α : Type} (l : List α) (x : α) (n : Nat) :
    takeLast (n + 1) (l ++ [x]) = takeLast n l ++ [x] := by
  unfold takeLast
  have h1 : (l ++ [x]).length = l.length + 1 := by simp
  rw [h1]
  have h2 : l.length + 1 - (n + 1) = l.length - n := by omega
  rw [h2, List.drop_append_of_le_length (by omega)]

set_option maxRecDepth 10000 in
/-- C5 counterexample: with no prior turns and a null knowledge-base
answer, the fallback completion is invoked with three messages — the
system instruction and the current user message twice — not with the
claimed system instruction plus zero prior turns plus the current message
(two messages): the history window is fetched after the current message is
saved, so it already contains it. -/
theorem chat_fallback_duplicate_counterexample :
    (chat chatEnvNoKbAnswer [] "hi" true).completionRequest =
      some [("system", SYSTEM_PROMPT), ("user", "hi"), ("user", "hi")] ∧
    (chat chatEnvNoKbAnswer [] "hi" true).completionRequest ≠
      some [("system", SYSTEM_PROMPT), ("user", "hi")] := by
  constructor <;> decide

/-- C5 (amended): for every chat query with a null knowledge-base answer,
the pipeline falls back to an ungrounded completion whose prompt is the
system instruction, then the chronologically ordered window of the 10 most
recent stored messages — which, the current user message having been saved
before the history is fetched, consists of at most 9 strictly prior turns
followed by the current user message — and then the current user message
again, so the current message appears twice. -/
theorem chat_fallback_prompt (env : ChatEnv) (db : List DBMessage)
    (user_input : String) (use_kb : Bool)
    (hne : ¬ pyStripStr user_input = "")
    (hkb : (chatKbAnswer env use_kb).1 = none) :
    (chat env db user_input use_kb).completionRequest =
      some (("system", SYSTEM_PROMPT) ::
        (takeLast 9 db).map (fun m => (m.role, m.content)) ++
        [("user", user_input), ("user", user_input)]) := by
  unfold chat
  rw [if_neg hne]
  have hist : get_conversation_history (db ++ [⟨"user", user_input⟩]) 10 =
      takeLast 9 db ++ [⟨"user", user_input⟩] :=
    takeLast_append_one db ⟨"user", user_input⟩ 9
  cases hcomp : env.completion <;>
    simp [hist, hkb, optStrFalsy, hcomp, List.map_append]

set_option maxRecDepth 10000 in
/-- Witness for `chat_fallback_prompt` at a concrete environment with one
prior turn. -/
theorem chat_fallback_prompt_witness :
    (¬ pyStripStr "hi" = "") ∧
    (chatKbAnswer chatEnvNoKbAnswer true).1 = none ∧
    (chat chatEnvNoKbAnswer [⟨"user", "earlier"⟩] "hi" true).completionRequest =
      some (("system", SYSTEM_PROMPT) ::
        (takeLast 9 [(⟨"user", "earlier"⟩ : DBMessage)]).map
          (fun m => (m.role, m.content)) ++
        [("user", "hi"), ("user", "hi")]) :=
  ⟨by decide, by decide,
   chat_fallback_prompt chatEnvNoKbAnswer [⟨"user", "earlier"⟩] "hi" true
     (by decide) (by decide)⟩
